import Mathlib

/-!
Verification development for the SF-Game-Engine rendering core.

Shallow embedding of the C++ source under scrutiny:
 - `src/Graphics/Devices/PhysicalDevice.cpp` (device scoring),
 - `src/Graphics/Devices/LogicalDevice.cpp`/`.hpp` (queue-family selection),
 - `src/Graphics/Buffers/Buffer.cpp` (initial-data upload, move semantics, destructor),
 - `src/Graphics/Commands/CommandBuffer.cpp` (Begin/End guards),
 - `src/Graphics/Shaders/ShaderBundle.hpp` (binary bundle save/load),
 - `src/Graphics/Shaders/Shader.cpp` (descriptor-binding reflection merge),
 - `src/Graphics/Buffers/StorageHandler.hpp` / `UniformHandler.hpp` (dirty tracking).

Machine integers are modelled as `Nat` with explicit `% 2^32` where the source
truncates to `uint32_t`; byte streams and strings are `List Nat` of byte values;
fallible operations return `Except`/`Option`/`Bool`-paired results.
-/

/-! ### Physical-device scoring (PhysicalDevice.cpp, `EnumeratePhysicalDevice`) -/

/-- VkPhysicalDeviceType, as switched over in `EnumeratePhysicalDevice`. -/
inductive PhysicalDeviceType where
  | other
  | integratedGpu
  | discreteGpu
  | virtualGpu
  | cpu
deriving DecidableEq, Repr

/-- A synthetic physical-device descriptor: the fields `EnumeratePhysicalDevice`
reads.  `hasRequiredExtensions` records whether every extension in
`LogicalDevice::DeviceExtensions` is present (checked first; missing means
score 0).  `totalVRAMBytes` is the summed size of the device-local heaps. -/
structure DeviceDescriptor where
  hasRequiredExtensions : Bool
  deviceType : PhysicalDeviceType
  apiMajor : Nat
  apiMinor : Nat
  timelineSemaphore : Bool
  descriptorIndexing : Bool
  bufferDeviceAddress : Bool
  dynamicRendering : Bool
  synchronization2 : Bool
  totalVRAMBytes : Nat
  maxImageDimension2D : Nat
  maxComputeWorkGroupCount0 : Nat
  geometryShader : Bool
  tessellationShader : Bool
  samplerAnisotropy : Bool
deriving DecidableEq, Repr

/-- Device-type scoring switch (PhysicalDevice.cpp lines 158-175). -/
def deviceTypeScore : PhysicalDeviceType → Nat
  | .discreteGpu => 10000
  | .integratedGpu => 1000
  | .virtualGpu => 500
  | .cpu => 100
  | .other => 50

/-- Vulkan API version bonus (lines 177-189). -/
def apiVersionBonus (d : DeviceDescriptor) : Nat :=
  if d.apiMajor ≥ 1 then
    if d.apiMinor ≥ 3 then 300
    else if d.apiMinor ≥ 2 then 200
    else if d.apiMinor ≥ 1 then 100
    else 0
  else 0

/-- Modern feature bonuses (lines 191-201). -/
def modernFeatureBonus (d : DeviceDescriptor) : Nat :=
  (if d.timelineSemaphore then 50 else 0) +
  (if d.descriptorIndexing then 50 else 0) +
  (if d.bufferDeviceAddress then 50 else 0) +
  (if d.dynamicRendering then 50 else 0) +
  (if d.synchronization2 then 50 else 0)

/-- VRAM bonus: 10 per GiB of device-local memory, capped at 16 GiB (lines 203-215). -/
def vramBonus (d : DeviceDescriptor) : Nat :=
  min (d.totalVRAMBytes / (1024 * 1024 * 1024)) 16 * 10

/-- `PhysicalDevice::EnumeratePhysicalDevice`: returns 0 when a required device
extension is missing, otherwise accumulates the weighted capability score and
halves it when sampler anisotropy is unsupported (lines 107-235). -/
def EnumeratePhysicalDevice (d : DeviceDescriptor) : Nat :=
  if d.hasRequiredExtensions = false then 0
  else
    let score :=
      deviceTypeScore d.deviceType +
      apiVersionBonus d +
      modernFeatureBonus d +
      vramBonus d +
      d.maxImageDimension2D / 1000 +
      (if d.maxComputeWorkGroupCount0 > 0 then 20 else 0) +
      (if d.geometryShader then 10 else 0) +
      (if d.tessellationShader then 10 else 0)
    if d.samplerAnisotropy = false then score / 2 else score

/-- Replace only the device type of a descriptor, keeping every other field. -/
def withDeviceType (d : DeviceDescriptor) (t : PhysicalDeviceType) : DeviceDescriptor :=
  { d with deviceType := t }

/-- A descriptor missing the required device extensions (everything else modest
but fixed); used to exhibit that the extension gate zeroes the score. -/
def noExtDescriptor : DeviceDescriptor :=
  { hasRequiredExtensions := false
    deviceType := PhysicalDeviceType.discreteGpu
    apiMajor := 1
    apiMinor := 3
    timelineSemaphore := true
    descriptorIndexing := true
    bufferDeviceAddress := true
    dynamicRendering := true
    synchronization2 := true
    totalVRAMBytes := 8 * 1024 * 1024 * 1024
    maxImageDimension2D := 16384
    maxComputeWorkGroupCount0 := 65535
    geometryShader := true
    tessellationShader := true
    samplerAnisotropy := true }

/-- The same descriptor with the required device extensions present. -/
def extDescriptor : DeviceDescriptor :=
  { noExtDescriptor with hasRequiredExtensions := true }

/-! ### Buffer initial-data upload (Buffer.cpp, constructor lines 73-95) -/

/-- Host-visible memory operations the `Buffer` constructor may issue while
seeding initial data. -/
inductive BufOp where
  | mapOp
  | copyOp
  | flushOp
  | unmapOp
deriving DecidableEq, Repr

/-- `VK_MEMORY_PROPERTY_HOST_COHERENT_BIT`. -/
def HOST_COHERENT_BIT : Nat := 2

/-- The operation sequence the `Buffer` constructor issues for non-empty
`initialData` (Buffer.cpp lines 73-95), translated from the source:
`mappedData_` is non-null exactly when the allocation is persistently mapped,
so `MapMemory` runs iff not persistently mapped; then the copy; then
`FlushMemory` iff `allocationInfo.memoryType & VK_MEMORY_PROPERTY_HOST_COHERENT_BIT`
is zero — note the source tests `memoryType`, which is the VMA *memory-type
index* of the allocation, not the property flags of that memory type; finally
`UnmapMemory` unless persistently mapped. -/
def uploadInitialData (dataNonempty persistentlyMapped : Bool) (memoryTypeIndex : Nat) : List BufOp :=
  if dataNonempty = false then []
  else
    (if persistentlyMapped = false then [BufOp.mapOp] else []) ++
    [BufOp.copyOp] ++
    (if memoryTypeIndex &&& HOST_COHERENT_BIT = 0 then [BufOp.flushOp] else []) ++
    (if persistentlyMapped = false then [BufOp.unmapOp] else [])

/-- The upload sequence as the specification words it (spec 4.3: "If
`initialData` is provided: map (if not already persistently mapped), copy
bytes, flush if the memory type is non-coherent, unmap (unless persistent)"):
the flush is keyed on the *property flags* of the memory type backing the
allocation lacking `VK_MEMORY_PROPERTY_HOST_COHERENT_BIT`. -/
def uploadInitialDataSpec (dataNonempty persistentlyMapped : Bool)
    (memoryTypePropertyFlags : Nat) : List BufOp :=
  if dataNonempty = false then []
  else
    (if persistentlyMapped = false then [BufOp.mapOp] else []) ++
    [BufOp.copyOp] ++
    (if memoryTypePropertyFlags &&& HOST_COHERENT_BIT = 0 then [BufOp.flushOp] else []) ++
    (if persistentlyMapped = false then [BufOp.unmapOp] else [])

/-! ### Buffer move construction and destruction (Buffer.cpp lines 98-126) -/

/-- The members of `Buffer` relevant to ownership: handles are `Nat` with 0
standing for `VK_NULL_HANDLE`/null, the mapped pointer is `Option Nat`. -/
structure BufferState where
  size : Nat
  buffer : Nat
  allocation : Nat
  mappedData : Option Nat
  persistentlyMapped : Bool
deriving DecidableEq, Repr

/-- `Buffer::Buffer(Buffer&&)`: the target copies every member, then the
source's buffer handle, allocation and mapped pointer are zeroed and its size
reset (lines 115-126).  Returns (moved-to, moved-from). -/
def bufferMoveConstruct (other : BufferState) : BufferState × BufferState :=
  (⟨other.size, other.buffer, other.allocation, other.mappedData, other.persistentlyMapped⟩,
   { other with buffer := 0, allocation := 0, mappedData := none, size := 0 })

/-- Allocator operations the destructor may issue. -/
inductive DtorOp where
  | unmapAlloc (allocation : Nat)
  | destroyBuf (buffer allocation : Nat)
deriving DecidableEq, Repr

/-- `Buffer::~Buffer` (lines 98-113): does nothing when the handle is null;
otherwise unmaps when mapped and not persistently mapped, then frees via
`vmaDestroyBuffer`. -/
def bufferDestructor (b : BufferState) : List DtorOp :=
  if b.buffer ≠ 0 then
    (if b.mappedData.isSome ∧ b.persistentlyMapped = false then
      [DtorOp.unmapAlloc b.allocation]
     else []) ++
    [DtorOp.destroyBuf b.buffer b.allocation]
  else []

/-! ### CommandBuffer Begin/End guards (CommandBuffer.cpp lines 30-49) -/

/-- The Vulkan recording calls a command buffer issues. -/
inductive CmdEvent where
  | beginCall
  | endCall
deriving DecidableEq, Repr

/-- The state `Begin`/`End` act on: the `running` flag plus the trace of
recording calls issued so far. -/
structure CommandBufferState where
  running : Bool
  events : List CmdEvent
deriving DecidableEq, Repr

/-- `CommandBuffer::Begin`: returns immediately when already running, else
issues `vkBeginCommandBuffer` and sets `running`. -/
def cmdBegin (cb : CommandBufferState) : CommandBufferState :=
  if cb.running then cb
  else { running := true, events := cb.events ++ [CmdEvent.beginCall] }

/-- `CommandBuffer::End`: returns immediately when not running, else issues
`vkEndCommandBuffer` and clears `running`. -/
def cmdEnd (cb : CommandBufferState) : CommandBufferState :=
  if cb.running = false then cb
  else { running := false, events := cb.events ++ [CmdEvent.endCall] }

/-! ### Queue-family selection (LogicalDevice.cpp, `CreateQueueIndices`,
`CreateLogicalDevice`) -/

/-- `VK_QUEUE_GRAPHICS_BIT`. -/
def GRAPHICS_BIT : Nat := 1
/-- `VK_QUEUE_COMPUTE_BIT`. -/
def COMPUTE_BIT : Nat := 2
/-- `VK_QUEUE_TRANSFER_BIT`. -/
def TRANSFER_BIT : Nat := 4

/-- `VkQueueFamilyProperties` fields read by `CreateQueueIndices`. -/
structure QueueFamilyProps where
  queueFlags : Nat
  queueCount : Nat
deriving DecidableEq, Repr

/-- The family "supports graphics": `queueFlags & VK_QUEUE_GRAPHICS_BIT`. -/
def pGraphics (q : QueueFamilyProps) : Bool := q.queueFlags &&& GRAPHICS_BIT ≠ 0

/-- The family is taken to support present: the source currently assumes any
graphics-capable family with at least one queue can present
(LogicalDevice.cpp lines 50-64). -/
def pPresent (q : QueueFamilyProps) : Bool := q.queueCount > 0 && pGraphics q

/-- The family supports compute. -/
def pCompute (q : QueueFamilyProps) : Bool := q.queueFlags &&& COMPUTE_BIT ≠ 0

/-- The family supports transfer. -/
def pTransfer (q : QueueFamilyProps) : Bool := q.queueFlags &&& TRANSFER_BIT ≠ 0

/-- Dedicated compute: compute-capable and not graphics-capable (lines 76-81). -/
def pDedicatedCompute (q : QueueFamilyProps) : Bool :=
  pCompute q && (q.queueFlags &&& GRAPHICS_BIT = 0)

/-- Dedicated transfer: `queueFlags == VK_QUEUE_TRANSFER_BIT` exactly (lines 94-99). -/
def pDedicatedTransfer (q : QueueFamilyProps) : Bool := q.queueFlags = TRANSFER_BIT

/-- The loop-local state of `CreateQueueIndices`: the six `std::optional`
first-match trackers plus the accumulated `supportedQueues` bitmask.  The
`this->` index members mirror the first four optionals (each is written
exactly when its optional transitions from empty), so they are recovered with
`Option.getD 0` against the `= 0` member initializers of LogicalDevice.hpp. -/
structure ScanState where
  graphicsFamily : Option Nat := none
  presentFamily : Option Nat := none
  computeFamily : Option Nat := none
  transferFamily : Option Nat := none
  dedicatedComputeFamily : Option Nat := none
  dedicatedTransferFamily : Option Nat := none
  supportedQueues : Nat := 0
deriving DecidableEq, Repr

/-- The graphics check of the family loop (LogicalDevice.cpp lines 40-48). -/
def stepGraphics (i : Nat) (q : QueueFamilyProps) (s : ScanState) : ScanState :=
  if pGraphics q then
    if s.graphicsFamily = none then
      { s with graphicsFamily := some i,
               supportedQueues := s.supportedQueues ||| GRAPHICS_BIT }
    else s
  else s

/-- The present check of the family loop (lines 50-64). -/
def stepPresent (i : Nat) (q : QueueFamilyProps) (s : ScanState) : ScanState :=
  if pPresent q then
    if s.presentFamily = none then { s with presentFamily := some i } else s
  else s

/-- The compute check with its nested dedicated-compute check (lines 66-82). -/
def stepCompute (i : Nat) (q : QueueFamilyProps) (s : ScanState) : ScanState :=
  if pCompute q then
    let sA :=
      if s.computeFamily = none then
        { s with computeFamily := some i,
                 supportedQueues := s.supportedQueues ||| COMPUTE_BIT }
      else s
    if sA.dedicatedComputeFamily = none ∧ q.queueFlags &&& GRAPHICS_BIT = 0 then
      { sA with dedicatedComputeFamily := some i }
    else sA
  else s

/-- The transfer check with its nested dedicated-transfer check (lines 84-100). -/
def stepTransfer (i : Nat) (q : QueueFamilyProps) (s : ScanState) : ScanState :=
  if pTransfer q then
    let sB :=
      if s.transferFamily = none then
        { s with transferFamily := some i,
                 supportedQueues := s.supportedQueues ||| TRANSFER_BIT }
      else s
    if sB.dedicatedTransferFamily = none ∧ q.queueFlags = TRANSFER_BIT then
      { sB with dedicatedTransferFamily := some i }
    else sB
  else s

/-- One iteration of the family loop (LogicalDevice.cpp lines 35-101), for the
family at index `i`: graphics check, then present, then compute, then
transfer, in source order. -/
def scanStep (i : Nat) (q : QueueFamilyProps) (s : ScanState) : ScanState :=
  stepTransfer i q (stepCompute i q (stepPresent i q (stepGraphics i q s)))

/-- The family loop, scanning families in index order starting at `i`. -/
def scanGo (i : Nat) (families : List QueueFamilyProps) (s : ScanState) : ScanState :=
  match families with
  | [] => s
  | q :: rest => scanGo (i + 1) rest (scanStep i q s)

/-- Full scan of a queue-family list from index 0 and the empty state. -/
def scanFamilies (families : List QueueFamilyProps) : ScanState :=
  scanGo 0 families {}

/-- The four queue-family index members of `LogicalDevice` (LogicalDevice.hpp
lines 47-50; each defaults to 0) plus `supportedQueues`. -/
structure LDState where
  graphicsFamily : Nat := 0
  presentFamily : Nat := 0
  computeFamily : Nat := 0
  transferFamily : Nat := 0
  supportedQueues : Nat := 0
deriving DecidableEq, Repr

/-- Non-fatal diagnostics `CreateQueueIndices` logs. -/
inductive QueueWarning where
  | noComputeFamily
  | noTransferFamily
deriving DecidableEq, Repr

/-- Fatal errors `CreateQueueIndices` throws. -/
inductive QueueError where
  | noGraphicsFamily
  | noPresentFamily
deriving DecidableEq, Repr

/-- The assignment phase of `CreateQueueIndices`: run the loop, then override
the compute/transfer indices with the dedicated families when found
(LogicalDevice.cpp lines 103-114).  In the source these member assignments
happen before the graphics/present validation throws, so they are modelled
separately from the error checks. -/
def CreateQueueIndicesCore (families : List QueueFamilyProps) : LDState :=
  let s := scanFamilies families
  let base : LDState :=
    { graphicsFamily := s.graphicsFamily.getD 0
      presentFamily := s.presentFamily.getD 0
      computeFamily := s.computeFamily.getD 0
      transferFamily := s.transferFamily.getD 0
      supportedQueues := s.supportedQueues }
  let st2 :=
    match s.dedicatedComputeFamily with
    | some d => { base with computeFamily := d }
    | none => base
  match s.dedicatedTransferFamily with
  | some d => { st2 with transferFamily := d }
  | none => st2

/-- `LogicalDevice::CreateQueueIndices` (lines 25-127): assignment phase, then
fatal checks for graphics and present, then warnings for missing compute and
transfer capability. -/
def CreateQueueIndices (families : List QueueFamilyProps) :
    Except QueueError (LDState × List QueueWarning) :=
  let s := scanFamilies families
  if s.graphicsFamily = none then Except.error QueueError.noGraphicsFamily
  else if s.presentFamily = none then Except.error QueueError.noPresentFamily
  else
    Except.ok (CreateQueueIndicesCore families,
      (if s.computeFamily = none then [QueueWarning.noComputeFamily] else []) ++
      (if s.transferFamily = none then [QueueWarning.noTransferFamily] else []))

/-- `CreateLogicalDevice` collects the unique queue families from the four
index members into an `std::unordered_set` (LogicalDevice.cpp lines 131-133);
modelled as the deduplicated list. -/
def uniqueQueueFamilies (st : LDState) : List Nat :=
  [st.graphicsFamily, st.presentFamily, st.computeFamily, st.transferFamily].dedup

/-- One `VkDeviceQueueCreateInfo` as built per unique family (lines 138-146). -/
structure QueueCreateInfo where
  queueFamilyIndex : Nat
  queueCount : Nat
deriving DecidableEq, Repr

/-- The queue-create-info list `CreateLogicalDevice` passes to device
creation: one entry with `queueCount = 1` per unique family. -/
def queueCreateInfos (st : LDState) : List QueueCreateInfo :=
  (uniqueQueueFamilies st).map (fun f => ⟨f, 1⟩)

/-- First index at or after `i` whose family satisfies `p`; the value each
`std::optional` first-match tracker of the loop converges to. -/
def firstIdxFrom (p : QueueFamilyProps → Bool) (i : Nat) :
    List QueueFamilyProps → Option Nat
  | [] => none
  | q :: rest => if p q then some i else firstIdxFrom p (i + 1) rest

/-- Keep the first option when set, else fall back to the second. -/
def orO (a b : Option Nat) : Option Nat :=
  match a with
  | some x => some x
  | none => b

/-! ### Shader bundle container (ShaderBundle.hpp)

Names, entry points, SPIR-V blobs and file streams are byte lists
(`List Nat`, bytes < 256); SPIR-V is handed to `addShader`/`getShader` as
32-bit words (`List Nat`, words < 2^32), matching `std::vector<uint32_t>`. -/

/-- `BUNDLE_MAGIC = 0x53484452` ('SHDR'). -/
def BUNDLE_MAGIC : Nat := 0x53484452

/-- `BUNDLE_VERSION = 1`. -/
def BUNDLE_VERSION : Nat := 1

/-- 2^32, the wrap-around modulus for `uint32_t`. -/
def U32MOD : Nat := 4294967296

/-- `ShaderBundle::hashString`: FNV-1a over the bytes of the name, with
`uint32_t` wrap-around on the multiply. -/
def hashString (name : List Nat) : Nat :=
  name.foldl (fun h c => ((h ^^^ c) * 16777619) % U32MOD) 2166136261

/-- `ShaderBundle::makeKey`: `nameHash ^ (uint32(stage) << 24)` with `uint32_t`
wrap-around on the shift. -/
def makeKey (nameHash stage : Nat) : Nat :=
  nameHash ^^^ ((stage <<< 24) % U32MOD)

/-- `ShaderBundle::Entry`: the in-memory entry record. -/
structure BundleEntry where
  name : List Nat
  entryPoint : List Nat
  stage : Nat
  offset : Nat
  size : Nat
  nameHash : Nat
deriving DecidableEq, Repr

/-- `ShaderBundle`'s private state: the concatenated SPIR-V byte blob, the
entry list, and the hash-to-index map.  The `std::unordered_map` is modelled
as an association list where a new insertion is consed in front, so lookup
finds the most recent binding for a key, matching overwrite-on-insert. -/
structure Bundle where
  data : List Nat
  entries : List BundleEntry
  hashToIndex : List (Nat × Nat)
deriving DecidableEq, Repr

/-- A default-constructed, empty bundle. -/
def emptyBundle : Bundle := ⟨[], [], []⟩

/-- Little-endian reinterpretation of a `uint32_t` vector as bytes (the
`reinterpret_cast<const char *>` in `addShader`). -/
def wordsToBytes : List Nat → List Nat
  | [] => []
  | w :: ws =>
    w % 256 :: w / 256 % 256 :: w / 65536 % 256 :: w / 16777216 % 256 :: wordsToBytes ws

/-- Little-endian regrouping of bytes into `uint32_t` words (the `memcpy` into
a `std::vector<uint32_t>` of `size / 4` words in `getShaderByHash`); a trailing
group of fewer than 4 bytes is dropped, as `size / 4` rounds down. -/
def bytesToWords : List Nat → List Nat
  | b0 :: b1 :: b2 :: b3 :: rest =>
    (b0 + 256 * b1 + 65536 * b2 + 16777216 * b3) :: bytesToWords rest
  | _ => []

/-- `ShaderBundle::addShader` (ShaderBundle.hpp lines 84-103): build the entry
(offset and size truncated through `static_cast<uint32_t>`), append the SPIR-V
bytes to the blob, and record the key-to-index binding before pushing the
entry. -/
def addShader (name : List Nat) (stage : Nat) (spirv : List Nat)
    (entryPoint : List Nat) (b : Bundle) : Bundle :=
  let nameHash := hashString name
  let e : BundleEntry :=
    { name := name
      entryPoint := entryPoint
      stage := stage
      offset := b.data.length % U32MOD
      size := 4 * spirv.length % U32MOD
      nameHash := nameHash }
  { data := b.data ++ wordsToBytes spirv
    entries := b.entries ++ [e]
    hashToIndex := (makeKey nameHash stage, b.entries.length) :: b.hashToIndex }

/-- Lookup in the modelled `unordered_map` (most recent binding wins). -/
def lookupIndex (key : Nat) : List (Nat × Nat) → Option Nat
  | [] => none
  | (k, v) :: rest => if k = key then some v else lookupIndex key rest

/-- `ShaderBundle::getShaderByHash` (lines 111-128): key lookup, then copy
`size` bytes at `offset` out of the blob as `size / 4` words.  The source
indexes `entries_` unchecked; bundles produced by `addShader`/`load` always
hold a valid index, and the out-of-range case is mapped to `none`. -/
def getShaderByHash (nameHash stage : Nat) (b : Bundle) : Option (List Nat) :=
  match lookupIndex (makeKey nameHash stage) b.hashToIndex with
  | none => none
  | some idx =>
    match b.entries.get? idx with
    | none => none
    | some e => some (bytesToWords ((b.data.drop e.offset).take e.size))

/-- `ShaderBundle::getShader`: lookup by hashed name and stage. -/
def getShader (name : List Nat) (stage : Nat) (b : Bundle) : Option (List Nat) :=
  getShaderByHash (hashString name) stage b

/-- Serialize a `uint32_t` little-endian (how the packed header and entry
fields land in the byte stream). -/
def u32le (n : Nat) : List Nat :=
  [n % 256, n / 256 % 256, n / 65536 % 256, n / 16777216 % 256]

/-- A fixed-size `char[len]` field as written by `strncpy(dst, src, len - 1)`
into a zero-initialized record: the source bytes up to the first NUL, capped
at `len - 1`, padded with zero bytes to exactly `len`. -/
def cstrField (len : Nat) (s : List Nat) : List Nat :=
  let t := (s.takeWhile (fun c => c ≠ 0)).take (len - 1)
  t ++ List.replicate (len - t.length) 0

/-- One on-disk `ShaderBundleEntry` record (336 bytes): four `uint32_t`
fields, then `name[256]`, then `entryPoint[64]`. -/
def serializeEntry (e : BundleEntry) : List Nat :=
  u32le e.nameHash ++ u32le e.stage ++ u32le e.offset ++ u32le e.size ++
  cstrField 256 e.name ++ cstrField 64 e.entryPoint

/-- `ShaderBundle::save` (lines 130-164): header (magic, version, entry count,
data size, 16 reserved bytes — written from an uninitialized stack struct in
the source, modelled as zeros; `load` never reads them), then the entry
records, then the blob. -/
def saveBundle (b : Bundle) : List Nat :=
  u32le BUNDLE_MAGIC ++ u32le BUNDLE_VERSION ++
  u32le (b.entries.length % U32MOD) ++ u32le (b.data.length % U32MOD) ++
  List.replicate 16 0 ++
  (b.entries.map serializeEntry).flatten ++ b.data

/-- Read a `uint32_t` from the stream head; bytes past the end of the stream
read as zero (the source performs unchecked `ifstream::read` calls, which on a
well-formed stream never run past the end). -/
def parseU32 (s : List Nat) : Nat × List Nat :=
  (s.getD 0 0 + 256 * s.getD 1 0 + 65536 * s.getD 2 0 + 16777216 * s.getD 3 0,
   s.drop 4)

/-- Take exactly `n` bytes, zero-extending past the end of the stream. -/
def takeZext (n : Nat) (s : List Nat) : List Nat :=
  s.take n ++ List.replicate (n - s.length) 0

/-- Read a fixed-size `char[len]` field and convert to a string as
`std::string(char *)` does: the bytes up to the first NUL. -/
def parseCstr (len : Nat) (s : List Nat) : List Nat × List Nat :=
  ((takeZext len s).takeWhile (fun c => c ≠ 0), s.drop len)

/-- Parse one on-disk entry record (the `file.read` plus field copies of the
load loop, lines 186-197). -/
def parseEntryBytes (s : List Nat) : BundleEntry × List Nat :=
  let p1 := parseU32 s
  let p2 := parseU32 p1.2
  let p3 := parseU32 p2.2
  let p4 := parseU32 p3.2
  let p5 := parseCstr 256 p4.2
  let p6 := parseCstr 64 p5.2
  ({ name := p5.1
     entryPoint := p6.1
     stage := p2.1
     offset := p3.1
     size := p4.1
     nameHash := p1.1 }, p6.2)

/-- Parse `n` consecutive entry records. -/
def parseEntries : Nat → List Nat → List BundleEntry × List Nat
  | 0, s => ([], s)
  | n + 1, s =>
    let p := parseEntryBytes s
    let r := parseEntries n p.2
    (p.1 :: r.1, r.2)

/-- Rebuild the hash-to-index map exactly as the load loop does: insert
`(makeKey nameHash stage, i)` for each entry index `i` in order (so the last
insertion sits at the head of the modelled association list). -/
def buildIndex (es : List BundleEntry) : List (Nat × Nat) :=
  (es.enum.map (fun p => (makeKey p.2.nameHash p.2.stage, p.1))).reverse

/-- `ShaderBundle::load` (lines 166-209): read the 32-byte header; when magic
or version mismatches, return `false` leaving the bundle untouched; otherwise
replace entries, hash index and blob from the stream and return `true` (the
source returns `true` after the header check regardless of how much of the
stream was actually present). -/
def loadBundle (stream : List Nat) (b : Bundle) : Bool × Bundle :=
  let pm := parseU32 stream
  let pv := parseU32 pm.2
  let pc := parseU32 pv.2
  let pd := parseU32 pc.2
  let body := pd.2.drop 16
  if pm.1 ≠ BUNDLE_MAGIC ∨ pv.1 ≠ BUNDLE_VERSION then (false, b)
  else
    let pe := parseEntries pc.1 body
    (true, { data := takeZext pd.1 pe.2
             entries := pe.1
             hashToIndex := buildIndex pe.1 })

/-! ### Shader descriptor-binding reflection (Shader.cpp, `ReflectFromSPIRV`)

The SPIR-V parse itself is the external SPIRV-Reflect collaborator; the
embedded logic is the per-binding loop (Shader.cpp lines 129-185) over the
reflected binding records it yields.  Push-constant and vertex-attribute
reflection and the descriptor-pool accumulation are not touched by any claim
and are omitted. -/

/-- `VK_SHADER_STAGE_VERTEX_BIT`. -/
def STAGE_VERTEX : Nat := 1
/-- `VK_SHADER_STAGE_FRAGMENT_BIT`. -/
def STAGE_FRAGMENT : Nat := 16

/-- A reflected descriptor binding as delivered by SPIRV-Reflect: the fields
the loop reads from `SpvReflectDescriptorBinding`. -/
structure ReflectedBinding where
  name : List Nat
  binding : Nat
  descriptorType : Nat
  count : Nat
  blockSize : Nat
  nonWritable : Bool
  nonReadable : Bool
deriving DecidableEq, Repr

/-- `Shader::UniformInfo` as filled in by the loop. -/
structure UniformInfo where
  binding : Nat
  offset : Nat
  size : Nat
  descriptorType : Nat
  stageFlags : Nat
  readOnly : Bool
  writeOnly : Bool
deriving DecidableEq, Repr

/-- `VkDescriptorSetLayoutBinding` as built by the loop. -/
structure LayoutBinding where
  binding : Nat
  descriptorType : Nat
  descriptorCount : Nat
  stageFlags : Nat
deriving DecidableEq, Repr

/-- The `Shader` members the binding loop mutates: the name-keyed `uniforms`
map (and its side tables), the running `lastDescriptorBinding` maximum, and
the `descriptorBindings` vector. -/
structure ReflectState where
  uniforms : List (List Nat × UniformInfo) := []
  descriptorLocations : List (List Nat × Nat) := []
  descriptorSizes : List (List Nat × Nat) := []
  descriptorTypes : List (Nat × Nat) := []
  lastDescriptorBinding : Nat := 0
  descriptorBindings : List LayoutBinding := []
deriving DecidableEq, Repr

/-- Name lookup in a name-keyed association list (`std::map::find`). -/
def lookupUniform (key : List Nat) : List (List Nat × UniformInfo) → Option UniformInfo
  | [] => none
  | (k, v) :: rest => if k = key then some v else lookupUniform key rest

/-- Update the value stored under a name (`it->second.stageFlags |= stage`). -/
def updateUniform (key : List Nat) (f : UniformInfo → UniformInfo) :
    List (List Nat × UniformInfo) → List (List Nat × UniformInfo)
  | [] => []
  | (k, v) :: rest =>
    if k = key then (k, f v) :: rest else (k, v) :: updateUniform key f rest

/-- Update the first list element satisfying `p` (`std::find_if` followed by a
mutation through the iterator). -/
def updateFirst (p : LayoutBinding → Bool) (f : LayoutBinding → LayoutBinding) :
    List LayoutBinding → List LayoutBinding
  | [] => []
  | x :: rest => if p x then f x :: rest else x :: updateFirst p f rest

/-- One iteration of the binding loop (Shader.cpp lines 133-185) at shader
stage `stage`: build the `UniformInfo`, merge its stage flags into `uniforms`
when the name was already seen (else insert it and the side-table rows),
update `lastDescriptorBinding`, then merge the layout binding by binding
number into `descriptorBindings` when present (else append it). -/
def reflectBinding (stage : Nat) (st : ReflectState) (rb : ReflectedBinding) :
    ReflectState :=
  let info : UniformInfo :=
    { binding := rb.binding
      offset := 0
      size := rb.blockSize
      descriptorType := rb.descriptorType
      stageFlags := stage
      readOnly := rb.nonWritable
      writeOnly := rb.nonReadable }
  let st1 :=
    match lookupUniform rb.name st.uniforms with
    | some _ =>
      { st with
          uniforms := updateUniform rb.name
            (fun u => { u with stageFlags := u.stageFlags ||| stage }) st.uniforms }
    | none =>
      { st with uniforms := st.uniforms ++ [(rb.name, info)]
                descriptorLocations := st.descriptorLocations ++ [(rb.name, rb.binding)]
                descriptorSizes := st.descriptorSizes ++ [(rb.name, rb.blockSize)]
                descriptorTypes := st.descriptorTypes ++ [(rb.binding, rb.descriptorType)] }
  let st2 := { st1 with lastDescriptorBinding := max st1.lastDescriptorBinding rb.binding }
  let layoutBinding : LayoutBinding :=
    { binding := rb.binding
      descriptorType := rb.descriptorType
      descriptorCount := rb.count
      stageFlags := stage }
  if st2.descriptorBindings.any (fun b => b.binding = layoutBinding.binding) then
    { st2 with
        descriptorBindings := updateFirst (fun b => b.binding = layoutBinding.binding)
          (fun b => { b with stageFlags := b.stageFlags ||| stage }) st2.descriptorBindings }
  else
    { st2 with descriptorBindings := st2.descriptorBindings ++ [layoutBinding] }

/-- `Shader::ReflectFromSPIRV` restricted to its descriptor-binding loop: fold
over the bindings SPIRV-Reflect enumerated for one stage's bytecode. -/
def reflectFromSPIRV (bindings : List ReflectedBinding) (stage : Nat)
    (st : ReflectState) : ReflectState :=
  bindings.foldl (reflectBinding stage) st

/-! ### Uniform/storage handler dirty tracking (StorageHandler.hpp lines
21-48, UniformHandler.hpp lines 22-44) -/

/-- `Buffer::Status` (Buffer.hpp lines 26-31). -/
inductive BufferStatus where
  | Reset
  | Changed
  | Normal
  | OverFlow
deriving DecidableEq, Repr

/-- The handler members `Push` touches.  `bufferData` is the byte content the
mapped pointer `data_` exposes; `hasUniformBlock`/`hasBuffer` model the
null-checks on `uniformBlock_` and the buffer pointer. -/
structure HandlerState where
  hasUniformBlock : Bool
  hasBuffer : Bool
  size : Nat
  bufferData : List Nat
  bound : Bool
  status : BufferStatus
deriving DecidableEq, Repr

/-- Write `src` over `dst` starting at `offset` (`std::ranges::copy_n` through
the mapped pointer). -/
def overwriteAt (dst : List Nat) (offset : Nat) (src : List Nat) : List Nat :=
  dst.take offset ++ src ++ dst.drop (offset + src.length)

/-- `StorageHandler::Push(std::span<const std::byte>)` (StorageHandler.hpp
lines 21-48), instrumented with the number of byte-for-byte comparisons and
the number of copies performed: a size mismatch records the new size and
forces `Reset`; a missing block or buffer is a no-op; otherwise map once, then
skip the comparison and copy when the status is already `Changed`, else
compare the incoming bytes against the first `data.length` mapped bytes and
copy (setting `Changed`) only when they differ. -/
def pushSpan (data : List Nat) (s : HandlerState) : HandlerState × Nat × Nat :=
  if s.size ≠ data.length then
    ({ s with size := data.length, status := BufferStatus.Reset }, 0, 0)
  else if ¬(s.hasUniformBlock ∧ s.hasBuffer) then (s, 0, 0)
  else
    let s1 := if s.bound = false then { s with bound := true } else s
    if s1.status = BufferStatus.Changed then
      ({ s1 with bufferData := overwriteAt s1.bufferData 0 data,
                 status := BufferStatus.Changed }, 0, 1)
    else if s1.bufferData.take data.length ≠ data then
      ({ s1 with bufferData := overwriteAt s1.bufferData 0 data,
                 status := BufferStatus.Changed }, 1, 1)
    else (s1, 1, 0)

/-- `UniformHandler::Push(const T &, offset, size)` (UniformHandler.hpp lines
22-44; `StorageHandler` has the identical overload), instrumented the same
way: `src` is the object's byte image, `copySize = min size src.length`, the
comparison window is the `copySize` mapped bytes at `offset`. -/
def pushObject (src : List Nat) (offset size : Nat) (s : HandlerState) :
    HandlerState × Nat × Nat :=
  if ¬(s.hasUniformBlock ∧ s.hasBuffer) then (s, 0, 0)
  else
    let s1 := if s.bound = false then { s with bound := true } else s
    let copySize := min size src.length
    if s1.status = BufferStatus.Changed then
      ({ s1 with bufferData := overwriteAt s1.bufferData offset (src.take copySize),
                 status := BufferStatus.Changed }, 0, 1)
    else if (s1.bufferData.drop offset).take copySize ≠ src.take copySize then
      ({ s1 with bufferData := overwriteAt s1.bufferData offset (src.take copySize),
                 status := BufferStatus.Changed }, 1, 1)
    else (s1, 1, 0)

/-! ## Theorems -/

/-! ### Projection lemmas for `withDeviceType` -/

lemma withDeviceType_ext (d : DeviceDescriptor) (t : PhysicalDeviceType) :
    (withDeviceType d t).hasRequiredExtensions = d.hasRequiredExtensions := rfl

lemma withDeviceType_type (d : DeviceDescriptor) (t : PhysicalDeviceType) :
    (withDeviceType d t).deviceType = t := rfl

lemma apiVersionBonus_withDeviceType (d : DeviceDescriptor) (t : PhysicalDeviceType) :
    apiVersionBonus (withDeviceType d t) = apiVersionBonus d := rfl

lemma modernFeatureBonus_withDeviceType (d : DeviceDescriptor) (t : PhysicalDeviceType) :
    modernFeatureBonus (withDeviceType d t) = modernFeatureBonus d := rfl

lemma vramBonus_withDeviceType (d : DeviceDescriptor) (t : PhysicalDeviceType) :
    vramBonus (withDeviceType d t) = vramBonus d := rfl

lemma withDeviceType_maxDim (d : DeviceDescriptor) (t : PhysicalDeviceType) :
    (withDeviceType d t).maxImageDimension2D = d.maxImageDimension2D := rfl

lemma withDeviceType_maxCompute (d : DeviceDescriptor) (t : PhysicalDeviceType) :
    (withDeviceType d t).maxComputeWorkGroupCount0 = d.maxComputeWorkGroupCount0 := rfl

lemma withDeviceType_geom (d : DeviceDescriptor) (t : PhysicalDeviceType) :
    (withDeviceType d t).geometryShader = d.geometryShader := rfl

lemma withDeviceType_tess (d : DeviceDescriptor) (t : PhysicalDeviceType) :
    (withDeviceType d t).tessellationShader = d.tessellationShader := rfl

lemma withDeviceType_aniso (d : DeviceDescriptor) (t : PhysicalDeviceType) :
    (withDeviceType d t).samplerAnisotropy = d.samplerAnisotropy := rfl

/-! ### C1 -/

/-- C1: the claim states the constructor flushes if and only if the memory
type backing the allocation lacks the host-coherent property.  The code
instead tests the memory-type *index* against the property bit (its own
comment says "Flush if not coherent"), so on an allocation from memory type
index 2 whose property flags are HOST_VISIBLE only (value 1, non-coherent),
the constructor issues no flush while the claimed sequence requires one; the
remaining map/copy/unmap steps agree. -/
theorem C1_flush_tests_index_not_property_flags :
    uploadInitialData true false 2 = [BufOp.mapOp, BufOp.copyOp, BufOp.unmapOp] ∧
    uploadInitialDataSpec true false 1 =
      [BufOp.mapOp, BufOp.copyOp, BufOp.flushOp, BufOp.unmapOp] ∧
    uploadInitialData true false 2 ≠ uploadInitialDataSpec true false 1 := by
  decide

/-! ### C2 -/

/-- C2 (counterexample): two device descriptors identical in every field
except device type (discrete vs integrated), both missing a required device
extension, are each scored 0 by `EnumeratePhysicalDevice`, so the discrete
score is not strictly greater than the integrated score. -/
theorem C2_counterexample_missing_extensions :
    EnumeratePhysicalDevice (withDeviceType noExtDescriptor PhysicalDeviceType.discreteGpu) = 0 ∧
    EnumeratePhysicalDevice (withDeviceType noExtDescriptor PhysicalDeviceType.integratedGpu) = 0 ∧
    ¬ EnumeratePhysicalDevice (withDeviceType noExtDescriptor PhysicalDeviceType.discreteGpu) >
        EnumeratePhysicalDevice (withDeviceType noExtDescriptor PhysicalDeviceType.integratedGpu) := by
  decide

/-- C2 (amended): for two physical-device descriptors identical in every
field except device type, provided the required device extensions are
present, the enumeration score is strictly greater for a discrete GPU than
for an integrated GPU, and strictly greater for an integrated GPU than for a
CPU device. -/
theorem C2_device_type_score_strict (d : DeviceDescriptor)
    (h : d.hasRequiredExtensions = true) :
    EnumeratePhysicalDevice (withDeviceType d PhysicalDeviceType.discreteGpu) >
      EnumeratePhysicalDevice (withDeviceType d PhysicalDeviceType.integratedGpu) ∧
    EnumeratePhysicalDevice (withDeviceType d PhysicalDeviceType.integratedGpu) >
      EnumeratePhysicalDevice (withDeviceType d PhysicalDeviceType.cpu) := by
  simp [EnumeratePhysicalDevice, withDeviceType_ext, withDeviceType_type,
    apiVersionBonus_withDeviceType, modernFeatureBonus_withDeviceType,
    vramBonus_withDeviceType, withDeviceType_maxDim, withDeviceType_maxCompute,
    withDeviceType_geom, withDeviceType_tess, withDeviceType_aniso, h, deviceTypeScore]
  constructor <;> split_ifs <;> omega

/-- C2 (witness): the amended theorem applied to a concrete descriptor that
has the required extensions. -/
theorem C2_device_type_score_strict_witness :
    EnumeratePhysicalDevice (withDeviceType extDescriptor PhysicalDeviceType.discreteGpu) >
      EnumeratePhysicalDevice (withDeviceType extDescriptor PhysicalDeviceType.integratedGpu) ∧
    EnumeratePhysicalDevice (withDeviceType extDescriptor PhysicalDeviceType.integratedGpu) >
      EnumeratePhysicalDevice (withDeviceType extDescriptor PhysicalDeviceType.cpu) :=
  C2_device_type_score_strict extDescriptor rfl

/-! ### C8 -/

/-- C8: after move-constructing `B2` from `B1` (with `B1` owning a non-null
handle), `B1` is left with null handle, null allocation and no mapped
pointer, its destructor performs no operation, `B2` holds the original
handle, allocation and mapped pointer, and running both destructors frees the
underlying buffer exactly once. -/
theorem C8_move_transfers_ownership_frees_once (b1 : BufferState)
    (hb : b1.buffer ≠ 0) :
    (bufferMoveConstruct b1).2.buffer = 0 ∧
    (bufferMoveConstruct b1).2.allocation = 0 ∧
    (bufferMoveConstruct b1).2.mappedData = none ∧
    bufferDestructor (bufferMoveConstruct b1).2 = [] ∧
    (bufferMoveConstruct b1).1.buffer = b1.buffer ∧
    (bufferMoveConstruct b1).1.allocation = b1.allocation ∧
    (bufferMoveConstruct b1).1.mappedData = b1.mappedData ∧
    (bufferDestructor (bufferMoveConstruct b1).2 ++
        bufferDestructor (bufferMoveConstruct b1).1).count
      (DtorOp.destroyBuf b1.buffer b1.allocation) = 1 := by
  refine ⟨rfl, rfl, rfl, rfl, rfl, rfl, rfl, ?_⟩
  simp only [bufferMoveConstruct, bufferDestructor]
  split_ifs with h1 h2 h3 <;> simp_all [List.count_cons, List.count_append]

/-- C8 (witness): the move theorem applied to a concrete mapped buffer. -/
theorem C8_move_transfers_ownership_frees_once_witness :
    (bufferMoveConstruct ⟨64, 7, 9, some 4096, false⟩).2.buffer = 0 ∧
    (bufferMoveConstruct ⟨64, 7, 9, some 4096, false⟩).2.allocation = 0 ∧
    (bufferMoveConstruct ⟨64, 7, 9, some 4096, false⟩).2.mappedData = none ∧
    bufferDestructor (bufferMoveConstruct ⟨64, 7, 9, some 4096, false⟩).2 = [] ∧
    (bufferMoveConstruct ⟨64, 7, 9, some 4096, false⟩).1.buffer = 7 ∧
    (bufferMoveConstruct ⟨64, 7, 9, some 4096, false⟩).1.allocation = 9 ∧
    (bufferMoveConstruct ⟨64, 7, 9, some 4096, false⟩).1.mappedData = some 4096 ∧
    (bufferDestructor (bufferMoveConstruct ⟨64, 7, 9, some 4096, false⟩).2 ++
        bufferDestructor (bufferMoveConstruct ⟨64, 7, 9, some 4096, false⟩).1).count
      (DtorOp.destroyBuf 7 9) = 1 :=
  C8_move_transfers_ownership_frees_once ⟨64, 7, 9, some 4096, false⟩ (by decide)

/-! ### C9 -/

/-- C9: `Begin` on a command buffer whose `running` flag is set leaves the
state (flag and issued-call trace) unchanged; `End` on one whose flag is
clear likewise changes nothing; otherwise `Begin` sets the flag and `End`
clears it. -/
theorem C9_begin_end_idempotent_guards (cb : CommandBufferState) :
    (cb.running = true → cmdBegin cb = cb) ∧
    (cb.running = false → cmdEnd cb = cb) ∧
    (cb.running = false → (cmdBegin cb).running = true) ∧
    (cb.running = true → (cmdEnd cb).running = false) := by
  refine ⟨fun h => ?_, fun h => ?_, fun h => ?_, fun h => ?_⟩ <;>
    simp [cmdBegin, cmdEnd, h]

/-- C9 (witness): the guard theorem applied to concrete running and
non-running command buffers. -/
theorem C9_begin_end_idempotent_guards_witness :
    cmdBegin ⟨true, [CmdEvent.beginCall]⟩ = ⟨true, [CmdEvent.beginCall]⟩ ∧
    cmdEnd ⟨false, []⟩ = ⟨false, []⟩ ∧
    (cmdBegin ⟨false, []⟩).running = true ∧
    (cmdEnd ⟨true, [CmdEvent.beginCall]⟩).running = false :=
  ⟨(C9_begin_end_idempotent_guards ⟨true, [CmdEvent.beginCall]⟩).1 rfl,
   (C9_begin_end_idempotent_guards ⟨false, []⟩).2.1 rfl,
   (C9_begin_end_idempotent_guards ⟨false, []⟩).2.2.1 rfl,
   (C9_begin_end_idempotent_guards ⟨true, [CmdEvent.beginCall]⟩).2.2.2 rfl⟩

lemma stepGraphics_fields (i : Nat) (q : QueueFamilyProps) (s : ScanState) :
    (stepGraphics i q s).graphicsFamily =
      (if pGraphics q = true ∧ s.graphicsFamily = none then some i
       else s.graphicsFamily) ∧
    (stepGraphics i q s).presentFamily = s.presentFamily ∧
    (stepGraphics i q s).computeFamily = s.computeFamily ∧
    (stepGraphics i q s).transferFamily = s.transferFamily ∧
    (stepGraphics i q s).dedicatedComputeFamily = s.dedicatedComputeFamily ∧
    (stepGraphics i q s).dedicatedTransferFamily = s.dedicatedTransferFamily := by
  simp only [stepGraphics]
  split_ifs <;> simp_all

lemma stepPresent_fields (i : Nat) (q : QueueFamilyProps) (s : ScanState) :
    (stepPresent i q s).presentFamily =
      (if pPresent q = true ∧ s.presentFamily = none then some i
       else s.presentFamily) ∧
    (stepPresent i q s).graphicsFamily = s.graphicsFamily ∧
    (stepPresent i q s).computeFamily = s.computeFamily ∧
    (stepPresent i q s).transferFamily = s.transferFamily ∧
    (stepPresent i q s).dedicatedComputeFamily = s.dedicatedComputeFamily ∧
    (stepPresent i q s).dedicatedTransferFamily = s.dedicatedTransferFamily := by
  simp only [stepPresent]
  split_ifs <;> simp_all

lemma stepCompute_fields (i : Nat) (q : QueueFamilyProps) (s : ScanState) :
    (stepCompute i q s).computeFamily =
      (if pCompute q = true ∧ s.computeFamily = none then some i
       else s.computeFamily) ∧
    (stepCompute i q s).dedicatedComputeFamily =
      (if pDedicatedCompute q = true ∧ s.dedicatedComputeFamily = none then some i
       else s.dedicatedComputeFamily) ∧
    (stepCompute i q s).graphicsFamily = s.graphicsFamily ∧
    (stepCompute i q s).presentFamily = s.presentFamily ∧
    (stepCompute i q s).transferFamily = s.transferFamily ∧
    (stepCompute i q s).dedicatedTransferFamily = s.dedicatedTransferFamily := by
  simp only [stepCompute, pDedicatedCompute]
  split_ifs <;> simp_all

lemma stepTransfer_fields (i : Nat) (q : QueueFamilyProps) (s : ScanState) :
    (stepTransfer i q s).transferFamily =
      (if pTransfer q = true ∧ s.transferFamily = none then some i
       else s.transferFamily) ∧
    (stepTransfer i q s).dedicatedTransferFamily =
      (if pDedicatedTransfer q = true ∧ s.dedicatedTransferFamily = none then some i
       else s.dedicatedTransferFamily) ∧
    (stepTransfer i q s).graphicsFamily = s.graphicsFamily ∧
    (stepTransfer i q s).presentFamily = s.presentFamily ∧
    (stepTransfer i q s).computeFamily = s.computeFamily ∧
    (stepTransfer i q s).dedicatedComputeFamily = s.dedicatedComputeFamily := by
  simp only [stepTransfer, pDedicatedTransfer, pTransfer, TRANSFER_BIT]
  split_ifs <;> simp_all

lemma orO_none (a : Option Nat) : orO a none = a := by cases a <;> rfl

lemma orO_step (c : Bool) (x : Option Nat) (i : Nat) (y : Option Nat) :
    orO (if c = true ∧ x = none then some i else x) y =
      orO x (if c = true then some i else y) := by
  cases c <;> cases x <;> simp [orO]

lemma scanStep_fields (i : Nat) (q : QueueFamilyProps) (s : ScanState) :
    (scanStep i q s).graphicsFamily =
      (if pGraphics q = true ∧ s.graphicsFamily = none then some i
       else s.graphicsFamily) ∧
    (scanStep i q s).presentFamily =
      (if pPresent q = true ∧ s.presentFamily = none then some i
       else s.presentFamily) ∧
    (scanStep i q s).computeFamily =
      (if pCompute q = true ∧ s.computeFamily = none then some i
       else s.computeFamily) ∧
    (scanStep i q s).transferFamily =
      (if pTransfer q = true ∧ s.transferFamily = none then some i
       else s.transferFamily) ∧
    (scanStep i q s).dedicatedComputeFamily =
      (if pDedicatedCompute q = true ∧ s.dedicatedComputeFamily = none then some i
       else s.dedicatedComputeFamily) ∧
    (scanStep i q s).dedicatedTransferFamily =
      (if pDedicatedTransfer q = true ∧ s.dedicatedTransferFamily = none then some i
       else s.dedicatedTransferFamily) := by
  obtain ⟨hg1, hg2, hg3, hg4, hg5, hg6⟩ := stepGraphics_fields i q s
  obtain ⟨hp1, hp2, hp3, hp4, hp5, hp6⟩ := stepPresent_fields i q (stepGraphics i q s)
  obtain ⟨hc1, hc2, hc3, hc4, hc5, hc6⟩ :=
    stepCompute_fields i q (stepPresent i q (stepGraphics i q s))
  obtain ⟨ht1, ht2, ht3, ht4, ht5, ht6⟩ :=
    stepTransfer_fields i q (stepCompute i q (stepPresent i q (stepGraphics i q s)))
  simp only [scanStep, ht1, ht2, ht3, ht4, ht5, ht6, hc1, hc2, hc3, hc4, hc5, hc6,
    hp1, hp2, hp3, hp4, hp5, hp6, hg1, hg2, hg3, hg4, hg5, hg6, and_self]

lemma scanGo_fields (l : List QueueFamilyProps) : ∀ (i : Nat) (s : ScanState),
    (scanGo i l s).graphicsFamily = orO s.graphicsFamily (firstIdxFrom pGraphics i l) ∧
    (scanGo i l s).presentFamily = orO s.presentFamily (firstIdxFrom pPresent i l) ∧
    (scanGo i l s).computeFamily = orO s.computeFamily (firstIdxFrom pCompute i l) ∧
    (scanGo i l s).transferFamily = orO s.transferFamily (firstIdxFrom pTransfer i l) ∧
    (scanGo i l s).dedicatedComputeFamily =
      orO s.dedicatedComputeFamily (firstIdxFrom pDedicatedCompute i l) ∧
    (scanGo i l s).dedicatedTransferFamily =
      orO s.dedicatedTransferFamily (firstIdxFrom pDedicatedTransfer i l) := by
  induction l with
  | nil => intro i s; simp [scanGo, firstIdxFrom, orO_none]
  | cons q rest ih =>
    intro i s
    obtain ⟨j1, j2, j3, j4, j5, j6⟩ := ih (i + 1) (scanStep i q s)
    obtain ⟨k1, k2, k3, k4, k5, k6⟩ := scanStep_fields i q s
    simp only [scanGo, firstIdxFrom, j1, j2, j3, j4, j5, j6, k1, k2, k3, k4, k5, k6]
    exact ⟨orO_step _ _ _ _, orO_step _ _ _ _, orO_step _ _ _ _,
      orO_step _ _ _ _, orO_step _ _ _ _, orO_step _ _ _ _⟩

lemma scanFamilies_fields (l : List QueueFamilyProps) :
    (scanFamilies l).graphicsFamily = firstIdxFrom pGraphics 0 l ∧
    (scanFamilies l).presentFamily = firstIdxFrom pPresent 0 l ∧
    (scanFamilies l).computeFamily = firstIdxFrom pCompute 0 l ∧
    (scanFamilies l).transferFamily = firstIdxFrom pTransfer 0 l ∧
    (scanFamilies l).dedicatedComputeFamily = firstIdxFrom pDedicatedCompute 0 l ∧
    (scanFamilies l).dedicatedTransferFamily = firstIdxFrom pDedicatedTransfer 0 l := by
  obtain ⟨h1, h2, h3, h4, h5, h6⟩ := scanGo_fields l 0 {}
  exact ⟨h1, h2, h3, h4, h5, h6⟩

lemma firstIdxFrom_of_all_false {p : QueueFamilyProps → Bool}
    {l : List QueueFamilyProps} (i : Nat) (h : ∀ q ∈ l, p q = false) :
    firstIdxFrom p i l = none := by
  induction l generalizing i with
  | nil => rfl
  | cons q rest ih =>
    simp only [firstIdxFrom, h q (List.mem_cons_self q rest)]
    exact ih (i + 1) fun r hr => h r (List.mem_cons_of_mem q hr)

lemma firstIdxFrom_isSome {p : QueueFamilyProps → Bool}
    {l : List QueueFamilyProps} (i : Nat) (h : ∃ q ∈ l, p q = true) :
    ∃ j, firstIdxFrom p i l = some j := by
  induction l generalizing i with
  | nil => simp at h
  | cons q rest ih =>
    by_cases hq : p q = true
    · exact ⟨i, by simp [firstIdxFrom, hq]⟩
    · obtain ⟨r, hr, hpr⟩ := h
      rcases List.mem_cons.mp hr with rfl | hr'
      · exact absurd hpr hq
      · obtain ⟨j, hj⟩ := ih (i + 1) ⟨r, hr', hpr⟩
        exact ⟨j, by simp [firstIdxFrom, hq, hj]⟩

lemma firstIdxFrom_le {p : QueueFamilyProps → Bool} {l : List QueueFamilyProps} :
    ∀ {i j : Nat}, firstIdxFrom p i l = some j → i ≤ j := by
  induction l with
  | nil => intro i j h; simp [firstIdxFrom] at h
  | cons q rest ih =>
    intro i j h
    simp only [firstIdxFrom] at h
    by_cases hq : p q
    · simp [hq] at h; omega
    · simp [hq] at h; have := ih h; omega

lemma firstIdxFrom_get {p : QueueFamilyProps → Bool} {l : List QueueFamilyProps} :
    ∀ {i j : Nat}, firstIdxFrom p i l = some j →
      ∃ q, l.get? (j - i) = some q ∧ p q = true := by
  induction l with
  | nil => intro i j h; simp [firstIdxFrom] at h
  | cons q rest ih =>
    intro i j h
    simp only [firstIdxFrom] at h
    by_cases hq : p q
    · simp [hq] at h
      subst h
      exact ⟨q, by simp, hq⟩
    · simp [hq] at h
      have hle := firstIdxFrom_le (p := p) (l := rest) h
      obtain ⟨r, hr, hpr⟩ := ih h
      refine ⟨r, ?_, hpr⟩
      have : j - i = (j - (i + 1)) + 1 := by omega
      rw [this]
      simpa using hr

/-- C3: for every queue-family list containing both a combined
graphics+compute family and a compute-capable family without graphics,
`CreateQueueIndices` assigns the compute role (the `computeFamily` member as
set by the assignment phase) to a compute-capable, non-graphics family — the
dedicated-compute override. -/
theorem C3_compute_role_prefers_dedicated_family (families : List QueueFamilyProps)
    (_hcombined : ∃ q ∈ families, pGraphics q = true ∧ pCompute q = true)
    (hdedic : ∃ q ∈ families, pCompute q = true ∧ q.queueFlags &&& GRAPHICS_BIT = 0) :
    ∃ q, families.get? ((CreateQueueIndicesCore families).computeFamily) = some q ∧
      pCompute q = true ∧ q.queueFlags &&& GRAPHICS_BIT = 0 := by
  have hded : ∃ q ∈ families, pDedicatedCompute q = true := by
    obtain ⟨q, hq, hc, hg⟩ := hdedic
    exact ⟨q, hq, by simp [pDedicatedCompute, hc, hg]⟩
  obtain ⟨j, hj⟩ := firstIdxFrom_isSome 0 hded
  obtain ⟨h1, h2, h3, h4, h5, h6⟩ := scanFamilies_fields families
  have hsdc : (scanFamilies families).dedicatedComputeFamily = some j := by rw [h5, hj]
  have hcf : (CreateQueueIndicesCore families).computeFamily = j := by
    cases hdt : (scanFamilies families).dedicatedTransferFamily <;>
      simp [CreateQueueIndicesCore, hsdc, hdt]
  obtain ⟨q, hq, hpq⟩ := firstIdxFrom_get hj
  rw [hcf]
  rw [Nat.sub_zero] at hq
  simp only [pDedicatedCompute, Bool.and_eq_true, decide_eq_true_eq] at hpq
  exact ⟨q, hq, hpq.1, hpq.2⟩

/-- C3 (witness): the dedication theorem applied to the concrete list
[graphics+compute family, compute-only family]. -/
theorem C3_witness :
    ∃ q, [QueueFamilyProps.mk 3 1, QueueFamilyProps.mk 2 1].get?
        ((CreateQueueIndicesCore [QueueFamilyProps.mk 3 1, QueueFamilyProps.mk 2 1]).computeFamily) = some q ∧
      pCompute q = true ∧ q.queueFlags &&& GRAPHICS_BIT = 0 :=
  C3_compute_role_prefers_dedicated_family
    [QueueFamilyProps.mk 3 1, QueueFamilyProps.mk 2 1]
    ⟨QueueFamilyProps.mk 3 1, by simp, by decide, by decide⟩
    ⟨QueueFamilyProps.mk 2 1, by simp, by decide, by decide⟩

/-- C10: on a queue-family list with a present-capable family but no
compute-capable (respectively no transfer-capable) family, `CreateQueueIndices`
still succeeds and only warns, the compute (respectively transfer) index is
left at its default 0 — indistinguishable from a real assignment to family 0 —
and device creation requests a queue for family 0 through the unique-family
set. -/
theorem C10_missing_role_defaults_to_family_zero (families : List QueueFamilyProps)
    (hpres : ∃ q ∈ families, pPresent q = true) :
    ((∀ q ∈ families, pCompute q = false) →
      ∃ warns, CreateQueueIndices families =
          Except.ok (CreateQueueIndicesCore families, warns) ∧
        (CreateQueueIndicesCore families).computeFamily = 0 ∧
        QueueWarning.noComputeFamily ∈ warns ∧
        0 ∈ uniqueQueueFamilies (CreateQueueIndicesCore families) ∧
        ∃ ci ∈ queueCreateInfos (CreateQueueIndicesCore families),
          ci.queueFamilyIndex = 0) ∧
    ((∀ q ∈ families, pTransfer q = false) →
      ∃ warns, CreateQueueIndices families =
          Except.ok (CreateQueueIndicesCore families, warns) ∧
        (CreateQueueIndicesCore families).transferFamily = 0 ∧
        QueueWarning.noTransferFamily ∈ warns ∧
        0 ∈ uniqueQueueFamilies (CreateQueueIndicesCore families) ∧
        ∃ ci ∈ queueCreateInfos (CreateQueueIndicesCore families),
          ci.queueFamilyIndex = 0) := by
  obtain ⟨h1, h2, h3, h4, h5, h6⟩ := scanFamilies_fields families
  have hgr : ∃ q ∈ families, pGraphics q = true := by
    obtain ⟨q, hq, hp⟩ := hpres
    simp only [pPresent, Bool.and_eq_true] at hp
    exact ⟨q, hq, hp.2⟩
  obtain ⟨jg, hjg⟩ := firstIdxFrom_isSome 0 hgr
  obtain ⟨jp, hjp⟩ := firstIdxFrom_isSome 0 hpres
  have hok : ∀ warns, CreateQueueIndices families =
      Except.ok (CreateQueueIndicesCore families, warns) ↔
      ((if (scanFamilies families).computeFamily = none
         then [QueueWarning.noComputeFamily] else []) ++
       (if (scanFamilies families).transferFamily = none
         then [QueueWarning.noTransferFamily] else [])) = warns := by
    intro warns
    simp [CreateQueueIndices, h1, hjg, h2, hjp, eq_comm]
  constructor
  · intro hnc
    have hcnone : (scanFamilies families).computeFamily = none := by
      rw [h3]; exact firstIdxFrom_of_all_false 0 hnc
    have hdcnone : (scanFamilies families).dedicatedComputeFamily = none := by
      rw [h5]
      refine firstIdxFrom_of_all_false 0 fun q hq => ?_
      simp [pDedicatedCompute, hnc q hq]
    have hcf : (CreateQueueIndicesCore families).computeFamily = 0 := by
      cases hdt : (scanFamilies families).dedicatedTransferFamily <;>
        simp [CreateQueueIndicesCore, hdcnone, hdt, hcnone]
    refine ⟨_, (hok _).mpr rfl, hcf, ?_, ?_, ?_⟩
    · simp [hcnone]
    · rw [← hcf]
      simp [uniqueQueueFamilies, List.mem_dedup]
    · refine ⟨⟨0, 1⟩, ?_, rfl⟩
      simp only [queueCreateInfos, List.mem_map]
      refine ⟨0, ?_, rfl⟩
      rw [← hcf]
      simp [uniqueQueueFamilies, List.mem_dedup]
  · intro hnt
    have htnone : (scanFamilies families).transferFamily = none := by
      rw [h4]; exact firstIdxFrom_of_all_false 0 hnt
    have hdtnone : (scanFamilies families).dedicatedTransferFamily = none := by
      rw [h6]
      refine firstIdxFrom_of_all_false 0 fun q hq => ?_
      have := hnt q hq
      simp only [pTransfer, TRANSFER_BIT] at this
      simp only [pDedicatedTransfer, TRANSFER_BIT]
      by_cases h4eq : q.queueFlags = 4
      · rw [h4eq] at this; simp at this
      · simp [h4eq]
    have htf : (CreateQueueIndicesCore families).transferFamily = 0 := by
      cases hdc : (scanFamilies families).dedicatedComputeFamily <;>
        simp [CreateQueueIndicesCore, hdtnone, hdc, htnone]
    refine ⟨_, (hok _).mpr rfl, htf, ?_, ?_, ?_⟩
    · simp [htnone]
    · rw [← htf]
      simp [uniqueQueueFamilies, List.mem_dedup]
    · refine ⟨⟨0, 1⟩, ?_, rfl⟩
      simp only [queueCreateInfos, List.mem_map]
      refine ⟨0, ?_, rfl⟩
      rw [← htf]
      simp [uniqueQueueFamilies, List.mem_dedup]

/-- C10 (witness): the default-index theorem applied to the concrete list
holding a single graphics-only family. -/
theorem C10_witness :
    (∃ warns, CreateQueueIndices [QueueFamilyProps.mk 1 1] =
        Except.ok (CreateQueueIndicesCore [QueueFamilyProps.mk 1 1], warns) ∧
      (CreateQueueIndicesCore [QueueFamilyProps.mk 1 1]).computeFamily = 0 ∧
      QueueWarning.noComputeFamily ∈ warns ∧
      0 ∈ uniqueQueueFamilies (CreateQueueIndicesCore [QueueFamilyProps.mk 1 1]) ∧
      ∃ ci ∈ queueCreateInfos (CreateQueueIndicesCore [QueueFamilyProps.mk 1 1]),
        ci.queueFamilyIndex = 0) ∧
    (∃ warns, CreateQueueIndices [QueueFamilyProps.mk 1 1] =
        Except.ok (CreateQueueIndicesCore [QueueFamilyProps.mk 1 1], warns) ∧
      (CreateQueueIndicesCore [QueueFamilyProps.mk 1 1]).transferFamily = 0 ∧
      QueueWarning.noTransferFamily ∈ warns ∧
      0 ∈ uniqueQueueFamilies (CreateQueueIndicesCore [QueueFamilyProps.mk 1 1]) ∧
      ∃ ci ∈ queueCreateInfos (CreateQueueIndicesCore [QueueFamilyProps.mk 1 1]),
        ci.queueFamilyIndex = 0) :=
  ⟨(C10_missing_role_defaults_to_family_zero [QueueFamilyProps.mk 1 1]
      ⟨QueueFamilyProps.mk 1 1, by simp, by decide⟩).1 (by decide),
   (C10_missing_role_defaults_to_family_zero [QueueFamilyProps.mk 1 1]
      ⟨QueueFamilyProps.mk 1 1, by simp, by decide⟩).2 (by decide)⟩

/-! ### C7 -/

/-- C7: with the uniform block and buffer present, and (for the span
overload) the tracked size matching the pushed size: pushing content equal to
the mapped buffer bytes from status `Normal` performs exactly one comparison,
zero copies and leaves status `Normal` with the buffer bytes untouched;
pushing differing content performs one comparison and exactly one copy and
sets `Changed`; and from status `Changed` the comparison is skipped (zero
comparisons) and exactly one copy always happens.  Stated for both the
storage-handler byte-span overload and the (object, offset, size) overload
shared with the uniform handler. -/
theorem C7_push_dirty_tracking (s : HandlerState)
    (hblock : s.hasUniformBlock = true) (hbuf : s.hasBuffer = true) :
    (∀ data : List Nat, s.size = data.length →
      (s.status = BufferStatus.Normal → s.bufferData.take data.length = data →
        (pushSpan data s).2.1 = 1 ∧ (pushSpan data s).2.2 = 0 ∧
        (pushSpan data s).1.status = BufferStatus.Normal ∧
        (pushSpan data s).1.bufferData = s.bufferData) ∧
      (s.status = BufferStatus.Normal → s.bufferData.take data.length ≠ data →
        (pushSpan data s).2.1 = 1 ∧ (pushSpan data s).2.2 = 1 ∧
        (pushSpan data s).1.status = BufferStatus.Changed) ∧
      (s.status = BufferStatus.Changed →
        (pushSpan data s).2.1 = 0 ∧ (pushSpan data s).2.2 = 1 ∧
        (pushSpan data s).1.status = BufferStatus.Changed)) ∧
    (∀ (src : List Nat) (offset size : Nat),
      (s.status = BufferStatus.Normal →
          (s.bufferData.drop offset).take (min size src.length) =
            src.take (min size src.length) →
        (pushObject src offset size s).2.1 = 1 ∧
        (pushObject src offset size s).2.2 = 0 ∧
        (pushObject src offset size s).1.status = BufferStatus.Normal ∧
        (pushObject src offset size s).1.bufferData = s.bufferData) ∧
      (s.status = BufferStatus.Normal →
          (s.bufferData.drop offset).take (min size src.length) ≠
            src.take (min size src.length) →
        (pushObject src offset size s).2.1 = 1 ∧
        (pushObject src offset size s).2.2 = 1 ∧
        (pushObject src offset size s).1.status = BufferStatus.Changed) ∧
      (s.status = BufferStatus.Changed →
        (pushObject src offset size s).2.1 = 0 ∧
        (pushObject src offset size s).2.2 = 1 ∧
        (pushObject src offset size s).1.status = BufferStatus.Changed)) := by
  constructor
  · intro data hsz
    refine ⟨fun hst heq => ?_, fun hst hne => ?_, fun hst => ?_⟩ <;>
      by_cases hb : s.bound = false <;>
        simp_all [pushSpan, hsz, hblock, hbuf, hb]
  · intro src offset size
    refine ⟨fun hst heq => ?_, fun hst hne => ?_, fun hst => ?_⟩ <;>
      by_cases hb : s.bound = false <;>
        simp_all [pushObject, hblock, hbuf, hb]


/-- C7 (witness): the dirty-tracking theorem applied to concrete handler
states: an equal push and a differing push from `Normal`, a push from
`Changed`, and an equal object push from `Normal`. -/
theorem C7_push_dirty_tracking_witness :
    ((pushSpan [5, 6] ⟨true, true, 2, [5, 6], false, BufferStatus.Normal⟩).2.1 = 1 ∧
     (pushSpan [5, 6] ⟨true, true, 2, [5, 6], false, BufferStatus.Normal⟩).2.2 = 0 ∧
     (pushSpan [5, 6] ⟨true, true, 2, [5, 6], false, BufferStatus.Normal⟩).1.status =
       BufferStatus.Normal ∧
     (pushSpan [5, 6] ⟨true, true, 2, [5, 6], false, BufferStatus.Normal⟩).1.bufferData =
       [5, 6]) ∧
    ((pushSpan [7, 8] ⟨true, true, 2, [5, 6], false, BufferStatus.Normal⟩).2.1 = 1 ∧
     (pushSpan [7, 8] ⟨true, true, 2, [5, 6], false, BufferStatus.Normal⟩).2.2 = 1 ∧
     (pushSpan [7, 8] ⟨true, true, 2, [5, 6], false, BufferStatus.Normal⟩).1.status =
       BufferStatus.Changed) ∧
    ((pushSpan [9, 9] ⟨true, true, 2, [5, 6], true, BufferStatus.Changed⟩).2.1 = 0 ∧
     (pushSpan [9, 9] ⟨true, true, 2, [5, 6], true, BufferStatus.Changed⟩).2.2 = 1 ∧
     (pushSpan [9, 9] ⟨true, true, 2, [5, 6], true, BufferStatus.Changed⟩).1.status =
       BufferStatus.Changed) ∧
    ((pushObject [5] 0 1 ⟨true, true, 2, [5, 6], false, BufferStatus.Normal⟩).2.1 = 1 ∧
     (pushObject [5] 0 1 ⟨true, true, 2, [5, 6], false, BufferStatus.Normal⟩).2.2 = 0 ∧
     (pushObject [5] 0 1 ⟨true, true, 2, [5, 6], false, BufferStatus.Normal⟩).1.status =
       BufferStatus.Normal ∧
     (pushObject [5] 0 1 ⟨true, true, 2, [5, 6], false, BufferStatus.Normal⟩).1.bufferData =
       [5, 6]) :=
  ⟨((C7_push_dirty_tracking ⟨true, true, 2, [5, 6], false, BufferStatus.Normal⟩
      rfl rfl).1 [5, 6] rfl).1 rfl (by decide),
   ((C7_push_dirty_tracking ⟨true, true, 2, [5, 6], false, BufferStatus.Normal⟩
      rfl rfl).1 [7, 8] rfl).2.1 rfl (by decide),
   ((C7_push_dirty_tracking ⟨true, true, 2, [5, 6], true, BufferStatus.Changed⟩
      rfl rfl).1 [9, 9] rfl).2.2 rfl,
   ((C7_push_dirty_tracking ⟨true, true, 2, [5, 6], false, BufferStatus.Normal⟩
      rfl rfl).2 [5] 0 1).1 rfl (by decide)⟩

/-! ### C6 -/

/-- C6: reflecting a binding with a given name and binding number from a
vertex-stage bytecode and then a binding with the same name and number from a
fragment-stage bytecode yields exactly one layout-binding entry (not two),
carrying the merged stage flags VERTEX|FRAGMENT and the shared binding
number, and exactly one `uniforms` entry under that name with the merged
stage flags. -/
theorem C6_same_name_binding_merges_stage_flags (name : List Nat) (bnum : Nat)
    (vb fb : ReflectedBinding)
    (hvn : vb.name = name) (hvb : vb.binding = bnum)
    (hfn : fb.name = name) (hfb : fb.binding = bnum) :
    (reflectFromSPIRV [fb] STAGE_FRAGMENT
        (reflectFromSPIRV [vb] STAGE_VERTEX {})).descriptorBindings.length = 1 ∧
    (∀ lb ∈ (reflectFromSPIRV [fb] STAGE_FRAGMENT
        (reflectFromSPIRV [vb] STAGE_VERTEX {})).descriptorBindings,
      lb.binding = bnum ∧ lb.stageFlags = STAGE_VERTEX ||| STAGE_FRAGMENT) ∧
    (reflectFromSPIRV [fb] STAGE_FRAGMENT
        (reflectFromSPIRV [vb] STAGE_VERTEX {})).uniforms.length = 1 ∧
    (∃ u, lookupUniform name (reflectFromSPIRV [fb] STAGE_FRAGMENT
        (reflectFromSPIRV [vb] STAGE_VERTEX {})).uniforms = some u ∧
      u.stageFlags = STAGE_VERTEX ||| STAGE_FRAGMENT) := by
  subst hvn hvb
  simp [reflectFromSPIRV, reflectBinding, lookupUniform, updateUniform, updateFirst,
    hfn, hfb, STAGE_VERTEX, STAGE_FRAGMENT]

/-- C6 (witness): the merge theorem applied to a concrete binding named
"CameraUBO" (bytes [67,97,109,101,114,97,85,66,79]) at binding 0, reflected
once from the vertex stage and once from the fragment stage. -/
theorem C6_same_name_binding_merges_stage_flags_witness :
    (reflectFromSPIRV [⟨[67, 97, 109, 101, 114, 97, 85, 66, 79], 0, 6, 1, 64, false, false⟩]
        STAGE_FRAGMENT
        (reflectFromSPIRV [⟨[67, 97, 109, 101, 114, 97, 85, 66, 79], 0, 6, 1, 64, false, false⟩]
          STAGE_VERTEX {})).descriptorBindings.length = 1 ∧
    (∀ lb ∈ (reflectFromSPIRV [⟨[67, 97, 109, 101, 114, 97, 85, 66, 79], 0, 6, 1, 64, false, false⟩]
        STAGE_FRAGMENT
        (reflectFromSPIRV [⟨[67, 97, 109, 101, 114, 97, 85, 66, 79], 0, 6, 1, 64, false, false⟩]
          STAGE_VERTEX {})).descriptorBindings,
      lb.binding = 0 ∧ lb.stageFlags = STAGE_VERTEX ||| STAGE_FRAGMENT) ∧
    (reflectFromSPIRV [⟨[67, 97, 109, 101, 114, 97, 85, 66, 79], 0, 6, 1, 64, false, false⟩]
        STAGE_FRAGMENT
        (reflectFromSPIRV [⟨[67, 97, 109, 101, 114, 97, 85, 66, 79], 0, 6, 1, 64, false, false⟩]
          STAGE_VERTEX {})).uniforms.length = 1 ∧
    (∃ u, lookupUniform [67, 97, 109, 101, 114, 97, 85, 66, 79]
        (reflectFromSPIRV [⟨[67, 97, 109, 101, 114, 97, 85, 66, 79], 0, 6, 1, 64, false, false⟩]
          STAGE_FRAGMENT
          (reflectFromSPIRV [⟨[67, 97, 109, 101, 114, 97, 85, 66, 79], 0, 6, 1, 64, false, false⟩]
            STAGE_VERTEX {})).uniforms = some u ∧
      u.stageFlags = STAGE_VERTEX ||| STAGE_FRAGMENT) :=
  C6_same_name_binding_merges_stage_flags
    [67, 97, 109, 101, 114, 97, 85, 66, 79] 0
    ⟨[67, 97, 109, 101, 114, 97, 85, 66, 79], 0, 6, 1, 64, false, false⟩
    ⟨[67, 97, 109, 101, 114, 97, 85, 66, 79], 0, 6, 1, 64, false, false⟩
    rfl rfl rfl rfl

/-! ### C5 -/

/-- C5: for any in-memory bundle and any stream of at least a full header
whose parsed magic or version field does not match the expected constants,
`load` returns `false` and leaves the bundle — entries, data blob and hash
index — exactly as it was. -/
theorem C5_bad_header_load_leaves_bundle_intact (b : Bundle) (stream : List Nat)
    (_hlen : 32 ≤ stream.length)
    (hbad : (parseU32 stream).1 ≠ BUNDLE_MAGIC ∨
      (parseU32 (parseU32 stream).2).1 ≠ BUNDLE_VERSION) :
    loadBundle stream b = (false, b) := by
  simp only [loadBundle]
  rw [if_pos hbad]

/-- C5 (witness): loading an all-zero 32-byte header (magic 0) into a bundle
that already holds one loaded entry fails and leaves it untouched. -/
theorem C5_bad_header_load_leaves_bundle_intact_witness :
    loadBundle (List.replicate 32 0)
      (addShader [97] 1 [42] [109] emptyBundle) =
      (false, addShader [97] 1 [42] [109] emptyBundle) :=
  C5_bad_header_load_leaves_bundle_intact
    (addShader [97] 1 [42] [109] emptyBundle) (List.replicate 32 0)
    (by decide) (Or.inl (by decide))

/-! ### C4 -/

lemma parseU32_u32le (n : Nat) (r : List Nat) :
    parseU32 (u32le n ++ r) = (n % U32MOD, r) := by
  simp [parseU32, u32le, U32MOD, List.getD]
  omega

lemma hashStep_lt (h c : Nat) : ((h ^^^ c) * 16777619) % U32MOD < U32MOD := by
  exact Nat.mod_lt _ (by norm_num [U32MOD])

lemma hashString_lt (name : List Nat) : hashString name < U32MOD := by
  have : ∀ (l : List Nat) (a : Nat), a < U32MOD →
      l.foldl (fun h c => ((h ^^^ c) * 16777619) % U32MOD) a < U32MOD := by
    intro l
    induction l with
    | nil => intro a ha; simpa using ha
    | cons c rest ih =>
      intro a _
      simpa using ih _ (hashStep_lt a c)
  exact this name 2166136261 (by norm_num [U32MOD])

lemma wordsToBytes_append (a b : List Nat) :
    wordsToBytes (a ++ b) = wordsToBytes a ++ wordsToBytes b := by
  induction a with
  | nil => rfl
  | cons w ws ih => simp [wordsToBytes, ih]

lemma wordsToBytes_length (ws : List Nat) :
    (wordsToBytes ws).length = 4 * ws.length := by
  induction ws with
  | nil => rfl
  | cons w rest ih => simp [wordsToBytes, ih]; omega

lemma bytesToWords_wordsToBytes (ws : List Nat) (h : ∀ w ∈ ws, w < U32MOD) :
    bytesToWords (wordsToBytes ws) = ws := by
  induction ws with
  | nil => rfl
  | cons w rest ih =>
    have hw : w < U32MOD := h w (List.mem_cons_self w rest)
    simp only [wordsToBytes, bytesToWords]
    rw [ih fun x hx => h x (List.mem_cons_of_mem w hx)]
    congr 1
    simp only [U32MOD] at hw
    omega

lemma cstrField_eq (len : Nat) (s : List Nat) (hnz : ∀ c ∈ s, c ≠ 0)
    (hlt : s.length < len) :
    cstrField len s = s ++ List.replicate (len - s.length) 0 := by
  have ht : s.takeWhile (fun c => c ≠ 0) = s := List.takeWhile_eq_self_iff.mpr (by
    intro c hc; simpa using hnz c hc)
  simp only [cstrField, ht]
  rw [List.take_of_length_le (by omega)]

lemma cstrField_length (len : Nat) (s : List Nat) (hnz : ∀ c ∈ s, c ≠ 0)
    (hlt : s.length < len) : (cstrField len s).length = len := by
  rw [cstrField_eq len s hnz hlt]
  simp
  omega

lemma takeWhile_append_zero (s : List Nat) (k : Nat) (hnz : ∀ c ∈ s, c ≠ 0)
    (hk : 0 < k) :
    (s ++ List.replicate k 0).takeWhile (fun c => c ≠ 0) = s := by
  induction s with
  | nil =>
    cases k with
    | zero => omega
    | succ m => simp [List.replicate_succ, List.takeWhile]
  | cons c rest ih =>
    have hc : c ≠ 0 := hnz c (List.mem_cons_self c rest)
    have ih' := ih fun x hx => hnz x (List.mem_cons_of_mem c hx)
    simp only [decide_not] at ih'
    simp only [decide_not, List.cons_append, List.takeWhile]
    simp [hc, ih']

lemma parseCstr_cstrField (len : Nat) (s : List Nat) (r : List Nat)
    (hnz : ∀ c ∈ s, c ≠ 0) (hlt : s.length < len) :
    parseCstr len (cstrField len s ++ r) = (s, r) := by
  have hfl : (cstrField len s).length = len := cstrField_length len s hnz hlt
  have htz : takeZext len (cstrField len s ++ r) = cstrField len s := by
    simp only [takeZext]
    rw [List.take_left' hfl, List.length_append, hfl]
    have h0 : len - (len + r.length) = 0 := by omega
    rw [h0]
    simp
  simp only [parseCstr, htz, List.drop_left' hfl]
  rw [cstrField_eq len s hnz hlt]
  rw [takeWhile_append_zero s (len - s.length) hnz (by omega)]

lemma parseEntryBytes_serializeEntry (e : BundleEntry) (r : List Nat)
    (hh : e.nameHash < U32MOD) (hst : e.stage < U32MOD)
    (hoff : e.offset < U32MOD) (hsz : e.size < U32MOD)
    (hnz : ∀ c ∈ e.name, c ≠ 0) (hnl : e.name.length < 256)
    (hez : ∀ c ∈ e.entryPoint, c ≠ 0) (hel : e.entryPoint.length < 64) :
    parseEntryBytes (serializeEntry e ++ r) = (e, r) := by
  obtain ⟨nm, ep, st, off, sz, h⟩ := e
  simp only at hh hst hoff hsz hnz hnl hez hel
  simp only [serializeEntry, parseEntryBytes, List.append_assoc, parseU32_u32le]
  rw [parseCstr_cstrField 256 nm _ hnz hnl]
  rw [parseCstr_cstrField 64 ep _ hez hel]
  simp [Nat.mod_eq_of_lt hh, Nat.mod_eq_of_lt hst, Nat.mod_eq_of_lt hoff,
    Nat.mod_eq_of_lt hsz]

lemma takeZext_length_self (s : List Nat) : takeZext s.length s = s := by
  simp [takeZext]

lemma buildIndex_pair (a b : BundleEntry) :
    buildIndex [a, b] =
      [(makeKey b.nameHash b.stage, 1), (makeKey a.nameHash a.stage, 0)] := by
  simp [buildIndex, List.enum]

/-- C4: a bundle built by adding a vertex-stage entry and a fragment-stage
entry with distinct names (names representable in the fixed `char[256]` field:
NUL-free and shorter than 256 bytes; entry points NUL-free and shorter than 64
bytes; 32-bit-representable sizes; distinct lookup keys), once saved and then
loaded into a fresh bundle, is reproduced exactly — every entry's stage, name,
entry point, offset, size and hash, the data blob and the hash index — and
each bytecode is retrievable bit-exactly by (name, stage) lookup. -/
theorem C4_bundle_roundtrip (n1 n2 e1 e2 w1 w2 : List Nat)
    (hn1z : ∀ c ∈ n1, c ≠ 0) (hn1l : n1.length < 256)
    (hn2z : ∀ c ∈ n2, c ≠ 0) (hn2l : n2.length < 256)
    (he1z : ∀ c ∈ e1, c ≠ 0) (he1l : e1.length < 64)
    (he2z : ∀ c ∈ e2, c ≠ 0) (he2l : e2.length < 64)
    (hw1 : ∀ w ∈ w1, w < U32MOD) (hw2 : ∀ w ∈ w2, w < U32MOD)
    (hsz : 4 * w1.length + 4 * w2.length < U32MOD)
    (hkey : makeKey (hashString n1) STAGE_VERTEX ≠
      makeKey (hashString n2) STAGE_FRAGMENT) :
    loadBundle
        (saveBundle (addShader n2 STAGE_FRAGMENT w2 e2
          (addShader n1 STAGE_VERTEX w1 e1 emptyBundle))) emptyBundle =
      (true, addShader n2 STAGE_FRAGMENT w2 e2
        (addShader n1 STAGE_VERTEX w1 e1 emptyBundle)) ∧
    getShader n1 STAGE_VERTEX
      (loadBundle
        (saveBundle (addShader n2 STAGE_FRAGMENT w2 e2
          (addShader n1 STAGE_VERTEX w1 e1 emptyBundle))) emptyBundle).2 = some w1 ∧
    getShader n2 STAGE_FRAGMENT
      (loadBundle
        (saveBundle (addShader n2 STAGE_FRAGMENT w2 e2
          (addShader n1 STAGE_VERTEX w1 e1 emptyBundle))) emptyBundle).2 = some w2 := by
  have hl1 : (wordsToBytes w1).length = 4 * w1.length := wordsToBytes_length w1
  have hl2 : (wordsToBytes w2).length = 4 * w2.length := wordsToBytes_length w2
  have hs1 : 4 * w1.length < U32MOD := by simp only [U32MOD] at hsz ⊢; omega
  have hs2 : 4 * w2.length < U32MOD := by simp only [U32MOD] at hsz ⊢; omega
  have hnorm : addShader n2 STAGE_FRAGMENT w2 e2
      (addShader n1 STAGE_VERTEX w1 e1 emptyBundle) =
      ⟨wordsToBytes w1 ++ wordsToBytes w2,
       [⟨n1, e1, STAGE_VERTEX, 0, 4 * w1.length, hashString n1⟩,
        ⟨n2, e2, STAGE_FRAGMENT, 4 * w1.length, 4 * w2.length, hashString n2⟩],
       [(makeKey (hashString n2) STAGE_FRAGMENT, 1),
        (makeKey (hashString n1) STAGE_VERTEX, 0)]⟩ := by
    simp [addShader, emptyBundle, hl1, Nat.mod_eq_of_lt hs1, Nat.mod_eq_of_lt hs2]
  rw [hnorm]
  have hdl : (wordsToBytes w1 ++ wordsToBytes w2).length =
      4 * w1.length + 4 * w2.length := by
    simp [hl1, hl2]
  have hdlt : (wordsToBytes w1 ++ wordsToBytes w2).length < U32MOD := by
    rw [hdl]; exact hsz
  have hpe1 : parseEntryBytes
      (serializeEntry ⟨n1, e1, STAGE_VERTEX, 0, 4 * w1.length, hashString n1⟩ ++
        (serializeEntry ⟨n2, e2, STAGE_FRAGMENT, 4 * w1.length, 4 * w2.length,
          hashString n2⟩ ++ (wordsToBytes w1 ++ wordsToBytes w2))) =
      (⟨n1, e1, STAGE_VERTEX, 0, 4 * w1.length, hashString n1⟩,
       serializeEntry ⟨n2, e2, STAGE_FRAGMENT, 4 * w1.length, 4 * w2.length,
          hashString n2⟩ ++ (wordsToBytes w1 ++ wordsToBytes w2)) := by
    exact parseEntryBytes_serializeEntry _ _ (hashString_lt n1)
      (by norm_num [STAGE_VERTEX, U32MOD]) (by norm_num [U32MOD]) hs1
      hn1z hn1l he1z he1l
  have hpe2 : parseEntryBytes
      (serializeEntry ⟨n2, e2, STAGE_FRAGMENT, 4 * w1.length, 4 * w2.length,
          hashString n2⟩ ++ (wordsToBytes w1 ++ wordsToBytes w2)) =
      (⟨n2, e2, STAGE_FRAGMENT, 4 * w1.length, 4 * w2.length, hashString n2⟩,
       wordsToBytes w1 ++ wordsToBytes w2) := by
    exact parseEntryBytes_serializeEntry _ _ (hashString_lt n2)
      (by norm_num [STAGE_FRAGMENT, U32MOD])
      (by simp only [U32MOD] at hs1 ⊢; omega) hs2 hn2z hn2l he2z he2l
  have hload : loadBundle
      (saveBundle ⟨wordsToBytes w1 ++ wordsToBytes w2,
       [⟨n1, e1, STAGE_VERTEX, 0, 4 * w1.length, hashString n1⟩,
        ⟨n2, e2, STAGE_FRAGMENT, 4 * w1.length, 4 * w2.length, hashString n2⟩],
       [(makeKey (hashString n2) STAGE_FRAGMENT, 1),
        (makeKey (hashString n1) STAGE_VERTEX, 0)]⟩) emptyBundle =
      (true, ⟨wordsToBytes w1 ++ wordsToBytes w2,
       [⟨n1, e1, STAGE_VERTEX, 0, 4 * w1.length, hashString n1⟩,
        ⟨n2, e2, STAGE_FRAGMENT, 4 * w1.length, 4 * w2.length, hashString n2⟩],
       [(makeKey (hashString n2) STAGE_FRAGMENT, 1),
        (makeKey (hashString n1) STAGE_VERTEX, 0)]⟩) := by
    have hmm : ∀ a : Nat, a % U32MOD % U32MOD = a % U32MOD :=
      fun a => Nat.mod_mod_of_dvd a (dvd_refl _)
    simp only [saveBundle, loadBundle, List.map, List.flatten, List.append_assoc,
      parseU32_u32le, List.append_nil, List.length_cons, List.length_nil, hmm]
    rw [List.drop_left' (by simp : (List.replicate 16 0).length = 16)]
    rw [Nat.mod_eq_of_lt hdlt]
    norm_num [BUNDLE_MAGIC, BUNDLE_VERSION, U32MOD]
    simp only [parseEntries, hpe1, hpe2]
    refine ⟨?_, trivial, buildIndex_pair _ _⟩
    rw [← List.length_append, takeZext_length_self]
  refine ⟨hload, ?_, ?_⟩
  · rw [hload]
    simp only [getShader, getShaderByHash, lookupIndex, if_neg (Ne.symm hkey), if_pos rfl]
    simp only [if_true, List.get?, List.drop_zero]
    rw [List.take_left' hl1, bytesToWords_wordsToBytes w1 hw1]
  · rw [hload]
    simp only [getShader, getShaderByHash, lookupIndex, if_pos rfl]
    simp only [if_true, List.get?]
    rw [List.drop_left' hl1, ← hl2, List.take_length, bytesToWords_wordsToBytes w2 hw2]

/-- C4 (witness): the round-trip theorem applied to the concrete bundle
{("vs_main", VERTEX, [119734787, 42]), ("fs_main", FRAGMENT,
[119734787, 7, 9])} with entry point "main". -/
theorem C4_bundle_roundtrip_witness :
    loadBundle
        (saveBundle (addShader [102, 115, 95, 109, 97, 105, 110] STAGE_FRAGMENT
          [119734787, 7, 9] [109, 97, 105, 110]
          (addShader [118, 115, 95, 109, 97, 105, 110] STAGE_VERTEX
            [119734787, 42] [109, 97, 105, 110] emptyBundle))) emptyBundle =
      (true, addShader [102, 115, 95, 109, 97, 105, 110] STAGE_FRAGMENT
          [119734787, 7, 9] [109, 97, 105, 110]
          (addShader [118, 115, 95, 109, 97, 105, 110] STAGE_VERTEX
            [119734787, 42] [109, 97, 105, 110] emptyBundle)) ∧
    getShader [118, 115, 95, 109, 97, 105, 110] STAGE_VERTEX
      (loadBundle
        (saveBundle (addShader [102, 115, 95, 109, 97, 105, 110] STAGE_FRAGMENT
          [119734787, 7, 9] [109, 97, 105, 110]
          (addShader [118, 115, 95, 109, 97, 105, 110] STAGE_VERTEX
            [119734787, 42] [109, 97, 105, 110] emptyBundle))) emptyBundle).2 =
      some [119734787, 42] ∧
    getShader [102, 115, 95, 109, 97, 105, 110] STAGE_FRAGMENT
      (loadBundle
        (saveBundle (addShader [102, 115, 95, 109, 97, 105, 110] STAGE_FRAGMENT
          [119734787, 7, 9] [109, 97, 105, 110]
          (addShader [118, 115, 95, 109, 97, 105, 110] STAGE_VERTEX
            [119734787, 42] [109, 97, 105, 110] emptyBundle))) emptyBundle).2 =
      some [119734787, 7, 9] :=
  C4_bundle_roundtrip
    [118, 115, 95, 109, 97, 105, 110] [102, 115, 95, 109, 97, 105, 110]
    [109, 97, 105, 110] [109, 97, 105, 110]
    [119734787, 42] [119734787, 7, 9]
    (by decide) (by decide) (by decide) (by decide) (by decide) (by decide)
    (by decide) (by decide) (by decide) (by decide) (by decide) (by decide)
